import Mathlib

/-!
# Agar.io simulation core (`agario.cpp`)

A shallow embedding of the physics step of `agario.cpp`: the geometry helpers
`rescaleVelocity` and `distance`, the `Food` and `Cell` structs, and the body of
the game loop of `main` (input handling, food spawning, food-cell interaction,
`Cell::update`, reaping).

Numeric model: C++ `float` values are idealised as exact reals, so every
statement below is about exact real arithmetic.  The SFML `shape` members are
rendering state that the simulation never reads back; they are left out.
Out-of-range `std::vector` indexing is undefined behaviour in C++ and is
modelled as `none`.
-/

namespace Agario

noncomputable section

/-! ## Constants (agario.cpp, lines 10-14) -/

def INIT_RADIUS : ℝ := 10.0
def DELTA_T : ℝ := 0.05
def DRAG_SPEED : ℝ := 0.2
def MAX_SPEED : ℝ := 25.0
def MASS_DEFICIT : ℝ := 0.9995

/-! ## `sf::Vector2f` -/

/-- The pair of coordinates of an `sf::Vector2f`. -/
@[ext]
structure Point where
  x : ℝ
  y : ℝ

/-- Vector sum, `a + b`. -/
def Point.add (a b : Point) : Point := ⟨a.x + b.x, a.y + b.y⟩

/-- Vector difference, `a - b`. -/
def Point.sub (a b : Point) : Point := ⟨a.x - b.x, a.y - b.y⟩

/-- Vector times scalar, `v * k` (also used for `k * v`). -/
def Point.mul (v : Point) (k : ℝ) : Point := ⟨v.x * k, v.y * k⟩

/-- Vector divided by scalar, `v / k`. -/
def Point.div (v : Point) (k : ℝ) : Point := ⟨v.x / k, v.y / k⟩

/-- Length of a vector, the expression `std::sqrt(v.x * v.x + v.y * v.y)`. -/
def vlen (v : Point) : ℝ := Real.sqrt (v.x * v.x + v.y * v.y)

/-! ## Geometry utilities (lines 93-103) -/

/-- Function `rescaleVelocity` (lines 95-98). -/
def rescaleVelocity (v : Point) (mass : ℝ) : Point :=
  let len := Real.sqrt (v.x * v.x + v.y * v.y)
  if len > MAX_SPEED then
    (((v.div len).mul MAX_SPEED).mul 50.0).div (50.0 + mass)
  else v

/-- Function `distance` (lines 101-103). -/
def distance (a b : Point) : ℝ :=
  Real.sqrt ((a.x - b.x) * (a.x - b.x) + (a.y - b.y) * (a.y - b.y))

/-! ## Entities (lines 40-91) -/

/-- Struct `Food` without its `shape`. -/
structure Food where
  pos : Point
  isAlive : Bool

/-- Constructor `Food(x, y)`. -/
def Food.new (x y : ℝ) : Food := { pos := ⟨x, y⟩, isAlive := true }

/-- Struct `Cell` without its `shape`. -/
structure Cell where
  pos : Point
  vel : Point
  mass : ℝ
  effective_radius : ℝ

/-- Constructor `Cell(x, y, m)` (lines 65-73). -/
def Cell.new (x y : ℝ) (m : ℝ) : Cell :=
  { pos := ⟨x, y⟩, vel := ⟨0.0, 0.0⟩, mass := m,
    effective_radius := INIT_RADIUS + m - 1.0 }

/-- Method `Cell::update` (lines 75-86). -/
def Cell.update (c : Cell) : Cell :=
  let pos1 := c.pos.add (c.vel.mul DELTA_T)
  let er := INIT_RADIUS + c.mass - 1.0
  let mass1 := if c.mass > 1.0 then c.mass * MASS_DEFICIT else c.mass
  { pos := pos1, vel := c.vel, mass := mass1, effective_radius := er }

/-- Method `Cell::kill` (lines 88-90). -/
def Cell.kill (c : Cell) : Cell := { c with mass := -1 }

/-! ## Simulation state and the game loop (lines 115-221) -/

/-- The locals of `main` that the simulation reads and writes. -/
structure State where
  myCells : List Cell
  Foods : List Food
  moveTo : Point
  singleCell : Bool

/-- State before the first iteration of the loop (lines 115-122). -/
def State.init : State :=
  { myCells := [Cell.new 0.0 0.0 1.0], Foods := [], moveTo := ⟨0, 0⟩,
    singleCell := true }

/-- Left mouse button pressed at `p` (lines 140-149): store the target and
recompute the velocity of every cell. -/
def setMoveTarget (p : Point) (s : State) : State :=
  { s with
    moveTo := p
    myCells := s.myCells.map fun c =>
      { c with vel := rescaleVelocity ((p.sub c.pos).mul DRAG_SPEED) c.mass } }

/-- Space pressed (lines 152-169).  `none` stands for an out-of-range index. -/
def toggleSplit (s : State) : Option State :=
  if s.singleCell then do
    let c0 ← s.myCells[0]?
    let myCell2 := Cell.new (c0.pos.x + 1.0) (c0.pos.y + 1.0) (c0.mass / 2)
    let cells1 := s.myCells ++ [myCell2]
    let a ← cells1[0]?
    let cells2 := cells1.set 0 { a with mass := a.mass / 2 }
    let b ← cells2[0]?
    let cells3 := cells2.set 0 { b with vel := b.vel.mul 1.2 }
    let c ← cells3[0]?
    let d ← cells3[1]?
    let cells4 := cells3.set 1 { d with vel := c.vel.div 2.0 }
    pure { s with myCells := cells4, singleCell := false }
  else do
    let a ← s.myCells[0]?
    let b ← s.myCells[1]?
    let cells1 := s.myCells.set 0 { a with mass := a.mass + b.mass }
    let c ← cells1[1]?
    let cells2 := cells1.set 1 { c with mass := -1 }
    pure { s with myCells := cells2, singleCell := true }

/-- Body of the inner loop (lines 186-194) for food `f` and cell `c`.  The
coefficient `3/2` is a quotient of two `int` literals. -/
def feedCell (f : Food) (c : Cell) : Food × Cell :=
  if distance f.pos c.pos < ((3 / 2 : ℕ) : ℝ) * INIT_RADIUS + c.mass - 1 then
    ({ f with isAlive := false }, { c with mass := c.mass + 1.0 })
  else (f, c)

/-- Inner loop over `j` (lines 185-195): the trailing `continue` moves on to
the next cell, so every cell is examined. -/
def feedCells (f : Food) : List Cell → Food × List Cell
  | [] => (f, [])
  | c :: cs =>
    let r := feedCell f c
    let rest := feedCells r.1 cs
    (rest.1, r.2 :: rest.2)

/-- Outer loop over `i` (lines 184-196): the food-cell interactions. -/
def consume : List Food → List Cell → List Food × List Cell
  | [], cells => ([], cells)
  | f :: fs, cells =>
    let r := feedCells f cells
    let rest := consume fs r.2
    (r.1 :: rest.1, rest.2)

/-- Loop of lines 212-214: `update` on every cell. -/
def updateAll (cells : List Cell) : List Cell := cells.map Cell.update

/-- Erase-remove of line 218: drop the foods with `isAlive == false`. -/
def reapFoods (foods : List Food) : List Food :=
  foods.filter fun f => !(f.isAlive == false)

/-- Erase-remove of line 220: drop the cells with `mass < 0`. -/
def reapCells (cells : List Cell) : List Cell :=
  cells.filter fun c => !(decide (c.mass < 0.0))

/-- What one iteration of the loop receives: at most one left click, at most
one press of Space, and the food drawn by `rand()` (lines 175-181), if any. -/
structure Input where
  move : Option Point
  toggle : Bool
  spawn : Option Point

/-- Lines 175-181: append the spawned food, if one was drawn. -/
def spawnFood (sp : Option Point) (foods : List Food) : List Food :=
  match sp with
  | some p => foods ++ [Food.new p.x p.y]
  | none => foods

/-- The event loop (lines 133-171) for the events of one iteration: the click,
if there is one, then the press of Space, if there is one. -/
def handleEvents (inp : Input) (s : State) : Option State :=
  let s1 := match inp.move with
    | some p => setMoveTarget p s
    | none => s
  if inp.toggle then toggleSplit s1 else some s1

/-- Lines 175-221: spawn, food-cell interactions, update, reaping. -/
def simulate (sp : Option Point) (s : State) : State :=
  let foods := spawnFood sp s.Foods
  let r := consume foods s.myCells
  let cells := updateAll r.2
  { s with Foods := reapFoods r.1, myCells := reapCells cells }

/-- One iteration of the game loop (lines 130-221), rendering apart. -/
def tick (inp : Input) (s : State) : Option State :=
  (handleEvents inp s).map (simulate inp.spawn)

/-- A finite sequence of iterations, first input first. -/
def run : List Input → State → Option State
  | [], s => some s
  | inp :: rest, s => (tick inp s).bind (run rest)

/-- The state after one iteration with Space pressed, starting from
`State.init`: two cells of mass `0.5` at `(0, 0)` and `(1, 1)`. -/
def afterSplit : State :=
  { myCells := [⟨⟨0, 0⟩, ⟨0, 0⟩, 1 / 2, 19 / 2⟩, ⟨⟨1, 1⟩, ⟨0, 0⟩, 1 / 2, 19 / 2⟩],
    Foods := [], moveTo := ⟨0, 0⟩, singleCell := false }

/-- The state after a further iteration with Space pressed and a food spawned
at `(1, 1)`: the merged-away second cell is still there, with mass `0`. -/
def afterFedMerge : State :=
  { myCells := [⟨⟨0, 0⟩, ⟨0, 0⟩, 1999 / 1000, 11⟩, ⟨⟨1, 1⟩, ⟨0, 0⟩, 0, 9⟩],
    Foods := [], moveTo := ⟨0, 0⟩, singleCell := true }

/-- The state after one iteration with a click at `(100, 0)`, starting from
`State.init`. -/
def afterMove100 : State :=
  { myCells := [⟨⟨1, 0⟩, ⟨20, 0⟩, 1, 10⟩], Foods := [], moveTo := ⟨100, 0⟩,
    singleCell := true }

/-- The state after a further iteration with Space pressed. -/
def afterMoveSplit : State :=
  { myCells := [⟨⟨11 / 5, 0⟩, ⟨24, 0⟩, 1 / 2, 19 / 2⟩,
      ⟨⟨13 / 5, 1⟩, ⟨12, 0⟩, 1 / 2, 19 / 2⟩],
    Foods := [], moveTo := ⟨100, 0⟩, singleCell := false }

/-- The state after yet another iteration with Space pressed. -/
def afterMoveMerge : State :=
  { myCells := [⟨⟨17 / 5, 0⟩, ⟨24, 0⟩, 1, 10⟩], Foods := [],
    moveTo := ⟨100, 0⟩, singleCell := true }

/-- The state after one iteration with a click at `(125, 0)`, starting from
`State.init`. -/
def afterMove125 : State :=
  { myCells := [⟨⟨5 / 4, 0⟩, ⟨25, 0⟩, 1, 10⟩], Foods := [], moveTo := ⟨125, 0⟩,
    singleCell := true }

/-- The state after a further iteration with Space pressed: cell 0 moves at
speed 30. -/
def afterBoost : State :=
  { myCells := [⟨⟨11 / 4, 0⟩, ⟨30, 0⟩, 1 / 2, 19 / 2⟩,
      ⟨⟨3, 1⟩, ⟨15, 0⟩, 1 / 2, 19 / 2⟩],
    Foods := [], moveTo := ⟨125, 0⟩, singleCell := false }

/-- The state after one iteration with a food spawned at `(0, 0)`, starting
from `State.init`: the cell has eaten it and decayed once. -/
def afterFeed : State :=
  { myCells := [⟨⟨0, 0⟩, ⟨0, 0⟩, 1999 / 1000, 11⟩], Foods := [],
    moveTo := ⟨0, 0⟩, singleCell := true }

/-- Sum of the masses of a cell collection. -/
def totalMass (cells : List Cell) : ℝ := (cells.map Cell.mass).sum

/-- Number of foods flagged dead in a food collection. -/
def deadCount (foods : List Food) : ℕ :=
  (foods.filter fun f => f.isAlive == false).length

/-- Repeated `Cell::update` on one cell. -/
def updateN : ℕ → Cell → Cell
  | 0, c => c
  | n + 1, c => updateN n c.update

/-! ## Lemmas on vector length and `rescaleVelocity` -/

theorem vlen_nonneg (v : Point) : 0 ≤ vlen v := Real.sqrt_nonneg _

theorem vlen_mul_of_nonneg (v : Point) (k : ℝ) (hk : 0 ≤ k) :
    vlen (v.mul k) = k * vlen v := by
  unfold vlen Point.mul
  have h : v.x * k * (v.x * k) + v.y * k * (v.y * k)
      = k ^ 2 * (v.x * v.x + v.y * v.y) := by ring
  simp only [h]
  rw [Real.sqrt_mul (sq_nonneg k), Real.sqrt_sq hk]

theorem rescaleVelocity_of_le (v : Point) (m : ℝ) (h : vlen v ≤ MAX_SPEED) :
    rescaleVelocity v m = v := by
  unfold rescaleVelocity
  simp only []
  rw [if_neg]
  exact not_lt.mpr h

theorem rescaleVelocity_of_gt (v : Point) (m : ℝ) (h : MAX_SPEED < vlen v) :
    rescaleVelocity v m = v.mul (MAX_SPEED * 50 / (vlen v * (50 + m))) := by
  have hgt : Real.sqrt (v.x * v.x + v.y * v.y) > MAX_SPEED := h
  unfold rescaleVelocity
  simp only []
  rw [if_pos hgt]
  simp only [Point.mul, Point.div, vlen]
  ext
  · simp only []
    rw [div_mul_eq_mul_div, div_mul_eq_mul_div, div_div]
    ring_nf
  · simp only []
    rw [div_mul_eq_mul_div, div_mul_eq_mul_div, div_div]
    ring_nf

theorem MAX_SPEED_pos : 0 < MAX_SPEED := by unfold MAX_SPEED; norm_num

theorem vlen_rescaleVelocity_of_gt (v : Point) (m : ℝ) (hm : -50 < m)
    (h : MAX_SPEED < vlen v) :
    vlen (rescaleVelocity v m) = MAX_SPEED * 50 / (50 + m) := by
  have hl : 0 < vlen v := lt_trans MAX_SPEED_pos h
  have hd : 0 < 50 + m := by linarith
  have hk : 0 ≤ MAX_SPEED * 50 / (vlen v * (50 + m)) := by
    have := MAX_SPEED_pos
    positivity
  rw [rescaleVelocity_of_gt v m h, vlen_mul_of_nonneg _ _ hk]
  field_simp
  ring

/-! ## Claims on `rescaleVelocity` -/

/-- C5 (counterexample): for the velocity `(20, 0)` and mass `50` the result of
`rescaleVelocity` has length above `MAX_SPEED * 50 / (50 + 50)`, because the
guard compares the length with `MAX_SPEED` itself and returns `v` unchanged. -/
theorem c5_velocity_cap_counterexample :
    (0 : ℝ) ≤ 50 ∧
      ¬ vlen (rescaleVelocity ⟨20, 0⟩ 50) ≤ MAX_SPEED * 50 / (50 + 50) := by
  have h20 : vlen ⟨20, 0⟩ = 20 := by
    unfold vlen
    rw [show ((20 : ℝ) * 20 + 0 * 0) = 20 ^ 2 by norm_num]
    exact Real.sqrt_sq (by norm_num)
  refine ⟨by norm_num, ?_⟩
  rw [rescaleVelocity_of_le _ _ (by rw [h20]; unfold MAX_SPEED; norm_num), h20]
  unfold MAX_SPEED
  norm_num

/-- C5 (amended): for every velocity `v` and mass `m ≥ 0` the length of
`rescaleVelocity v m` is at most `MAX_SPEED`, and it is at most
`MAX_SPEED * 50 / (50 + m)` whenever the length of `v` exceeds `MAX_SPEED`. -/
theorem c5_velocity_cap_amended (v : Point) (m : ℝ) (hm : 0 ≤ m) :
    vlen (rescaleVelocity v m) ≤ MAX_SPEED ∧
      (MAX_SPEED < vlen v →
        vlen (rescaleVelocity v m) ≤ MAX_SPEED * 50 / (50 + m)) := by
  have hcap : ∀ h : MAX_SPEED < vlen v,
      vlen (rescaleVelocity v m) = MAX_SPEED * 50 / (50 + m) :=
    fun h => vlen_rescaleVelocity_of_gt v m (by linarith) h
  constructor
  · rcases lt_or_le MAX_SPEED (vlen v) with h | h
    · rw [hcap h, div_le_iff₀ (by linarith)]
      have := MAX_SPEED_pos
      nlinarith
    · rw [rescaleVelocity_of_le v m h]
      exact h
  · intro h
    exact le_of_eq (hcap h)

/-- C5 (witness): the amended cap at the velocity `(30, 40)` of length 50 and
mass `50`. -/
theorem c5_velocity_cap_amended_witness :
    (0 : ℝ) ≤ 50 ∧ MAX_SPEED < vlen ⟨30, 40⟩ ∧
      vlen (rescaleVelocity ⟨30, 40⟩ 50) ≤ MAX_SPEED ∧
      vlen (rescaleVelocity ⟨30, 40⟩ 50) ≤ MAX_SPEED * 50 / (50 + 50) := by
  have h50 : MAX_SPEED < vlen ⟨30, 40⟩ := by
    unfold vlen MAX_SPEED
    rw [Real.lt_sqrt (by norm_num)]
    norm_num
  have h := c5_velocity_cap_amended ⟨30, 40⟩ 50 (by norm_num)
  exact ⟨by norm_num, h50, h.1, h.2 h50⟩

/-- C9: for mass `m > -50`, a velocity longer than `MAX_SPEED` is mapped to a
positive multiple of itself of length exactly `MAX_SPEED * 50 / (50 + m)`, and a
velocity of length at most `MAX_SPEED` is returned unchanged. -/
theorem c9_rescaleVelocity_spec (v : Point) (m : ℝ) (hm : -50 < m) :
    (MAX_SPEED < vlen v →
      (∃ k : ℝ, 0 < k ∧ rescaleVelocity v m = v.mul k) ∧
        vlen (rescaleVelocity v m) = MAX_SPEED * 50 / (50 + m)) ∧
    (vlen v ≤ MAX_SPEED → rescaleVelocity v m = v) := by
  refine ⟨fun h => ⟨⟨MAX_SPEED * 50 / (vlen v * (50 + m)), ?_,
    rescaleVelocity_of_gt v m h⟩, vlen_rescaleVelocity_of_gt v m hm h⟩,
    rescaleVelocity_of_le v m⟩
  have hl : 0 < vlen v := lt_trans MAX_SPEED_pos h
  have hd : 0 < 50 + m := by linarith
  have := MAX_SPEED_pos
  positivity

/-- C9 (witness): the velocity `(30, 40)` of length 50 is scaled, the velocity
`(3, 4)` of length 5 is returned as it is, both with mass `50`. -/
theorem c9_rescaleVelocity_spec_witness :
    (-50 : ℝ) < 50 ∧ MAX_SPEED < vlen ⟨30, 40⟩ ∧
      (∃ k : ℝ, 0 < k ∧ rescaleVelocity ⟨30, 40⟩ 50 = Point.mul ⟨30, 40⟩ k) ∧
      vlen (rescaleVelocity ⟨30, 40⟩ 50) = MAX_SPEED * 50 / (50 + 50) ∧
      vlen ⟨3, 4⟩ ≤ MAX_SPEED ∧ rescaleVelocity ⟨3, 4⟩ 50 = ⟨3, 4⟩ := by
  have h50 : MAX_SPEED < vlen ⟨30, 40⟩ := by
    unfold vlen MAX_SPEED
    rw [Real.lt_sqrt (by norm_num)]
    norm_num
  have h5 : vlen ⟨3, 4⟩ ≤ MAX_SPEED := by
    unfold vlen MAX_SPEED
    rw [Real.sqrt_le_iff]
    norm_num
  have hbig := (c9_rescaleVelocity_spec ⟨30, 40⟩ 50 (by norm_num)).1 h50
  exact ⟨by norm_num, h50, hbig.1, hbig.2, h5,
    (c9_rescaleVelocity_spec ⟨3, 4⟩ 50 (by norm_num)).2 h5⟩

/-- C10: for mass `m ≥ 0`, a velocity whose length is at most
`MAX_SPEED * 50 / (50 + m)` is returned by `rescaleVelocity` unchanged. -/
theorem c10_under_cap_unchanged (v : Point) (m : ℝ) (hm : 0 ≤ m)
    (hv : vlen v ≤ MAX_SPEED * 50 / (50 + m)) : rescaleVelocity v m = v := by
  apply rescaleVelocity_of_le
  refine le_trans hv ?_
  rw [div_le_iff₀ (by linarith)]
  have := MAX_SPEED_pos
  nlinarith

/-- C10 (witness): the velocity `(3, 4)` of length 5 with mass `50`. -/
theorem c10_under_cap_unchanged_witness :
    (0 : ℝ) ≤ 50 ∧ vlen ⟨3, 4⟩ ≤ MAX_SPEED * 50 / (50 + 50) ∧
      rescaleVelocity ⟨3, 4⟩ 50 = ⟨3, 4⟩ := by
  have h5 : vlen ⟨3, 4⟩ ≤ MAX_SPEED * 50 / (50 + 50) := by
    unfold vlen MAX_SPEED
    rw [Real.sqrt_le_iff]
    norm_num
  exact ⟨by norm_num, h5, c10_under_cap_unchanged ⟨3, 4⟩ 50 (by norm_num) h5⟩

/-! ## Mass decay under `Cell::update` -/

theorem MASS_DEFICIT_pos : 0 < MASS_DEFICIT := by unfold MASS_DEFICIT; norm_num

theorem update_mass_gt_deficit (c : Cell) (h : MASS_DEFICIT < c.mass) :
    MASS_DEFICIT < c.update.mass := by
  unfold Cell.update
  simp only []
  split
  · rename_i h1
    have h2 : (1 : ℝ) < c.mass := by norm_num at h1; exact h1
    have := MASS_DEFICIT_pos
    nlinarith
  · exact h

theorem updateN_mass_gt_deficit (n : ℕ) :
    ∀ c : Cell, MASS_DEFICIT < c.mass → MASS_DEFICIT < (updateN n c).mass := by
  induction n with
  | zero => intro c h; exact h
  | succ k ih => intro c h; exact ih c.update (update_mass_gt_deficit c h)

/-- C6 (counterexample): one update of a cell of mass `1.0001` leaves the mass
`1.0001 * 0.9995 = 0.99959995`, which is below `1.0`. -/
theorem c6_decay_floor_counterexample :
    (Cell.new 0 0 1.0001).mass > 1 ∧ 1 ≤ 1 ∧
      ¬ (updateN 1 (Cell.new 0 0 1.0001)).mass ≥ 1.0 := by
  simp only [updateN, Cell.update, Cell.new, MASS_DEFICIT]
  norm_num

/-- C6 (amended): for every cell with mass above 1 and every `n ≥ 1`, the mass
after `n` consecutive updates is strictly greater than `MASS_DEFICIT`. -/
theorem c6_decay_floor_amended (c : Cell) (n : ℕ) (hm : c.mass > 1)
    (_hn : 1 ≤ n) : (updateN n c).mass > MASS_DEFICIT := by
  apply updateN_mass_gt_deficit
  have : MASS_DEFICIT < 1 := by unfold MASS_DEFICIT; norm_num
  linarith

/-- C6 (witness): three updates of a cell of mass 2. -/
theorem c6_decay_floor_amended_witness :
    (Cell.new 0 0 2).mass > 1 ∧ 1 ≤ 3 ∧
      (updateN 3 (Cell.new 0 0 2)).mass > MASS_DEFICIT :=
  ⟨by simp [Cell.new], by decide,
    c6_decay_floor_amended (Cell.new 0 0 2) 3 (by simp [Cell.new]) (by decide)⟩

/-! ## The split/merge toggle -/

/-- C7: in a state with `singleCell = true` and one cell of mass `m`, the toggle
succeeds and leaves exactly two cells, each of mass `m / 2`, whose masses sum to
`m`, with `singleCell = false`. -/
theorem c7_split_conserves_mass (s : State) (c : Cell)
    (hs : s.singleCell = true) (hc : s.myCells = [c]) :
    ∃ s' a b, toggleSplit s = some s' ∧ s'.myCells = [a, b] ∧
      a.mass = c.mass / 2 ∧ b.mass = c.mass / 2 ∧ a.mass + b.mass = c.mass ∧
      s'.singleCell = false := by
  simp [toggleSplit, hs, hc, Cell.new]
  exact ⟨_, _, ⟨rfl, rfl⟩, rfl, rfl, by simp only []; ring⟩

/-- C7 (witness): splitting the initial state. -/
theorem c7_split_conserves_mass_witness :
    ∃ s' a b, toggleSplit State.init = some s' ∧ s'.myCells = [a, b] ∧
      a.mass = (Cell.new 0.0 0.0 1.0).mass / 2 ∧
      b.mass = (Cell.new 0.0 0.0 1.0).mass / 2 ∧
      a.mass + b.mass = (Cell.new 0.0 0.0 1.0).mass ∧ s'.singleCell = false :=
  c7_split_conserves_mass State.init (Cell.new 0.0 0.0 1.0) rfl rfl

/-- C8: in a state with `singleCell = false` and two cells, the toggle succeeds,
sets the mass of cell 0 to the sum of both masses and the mass of cell 1 to
`-1`, keeps both positions and velocities, and sets `singleCell = true`. -/
theorem c8_merge_transition (s : State) (c0 c1 : Cell)
    (hs : s.singleCell = false) (hc : s.myCells = [c0, c1]) :
    ∃ s' a b, toggleSplit s = some s' ∧ s'.myCells = [a, b] ∧
      a.mass = c0.mass + c1.mass ∧ b.mass = -1 ∧
      a.pos = c0.pos ∧ a.vel = c0.vel ∧ b.pos = c1.pos ∧ b.vel = c1.vel ∧
      s'.singleCell = true := by
  simp [toggleSplit, hs, hc]
  exact ⟨_, _, ⟨rfl, rfl⟩, rfl, rfl, rfl, rfl, rfl, rfl⟩

/-- C8 (witness): merging cells of mass 3 and 4. -/
theorem c8_merge_transition_witness :
    ∃ s' a b,
      toggleSplit ⟨[Cell.new 0 0 3, Cell.new 1 1 4], [], ⟨0, 0⟩, false⟩
        = some s' ∧ s'.myCells = [a, b] ∧
      a.mass = (Cell.new 0 0 3).mass + (Cell.new 1 1 4).mass ∧ b.mass = -1 ∧
      a.pos = (Cell.new 0 0 3).pos ∧ a.vel = (Cell.new 0 0 3).vel ∧
      b.pos = (Cell.new 1 1 4).pos ∧ b.vel = (Cell.new 1 1 4).vel ∧
      s'.singleCell = true :=
  c8_merge_transition ⟨[Cell.new 0 0 3, Cell.new 1 1 4], [], ⟨0, 0⟩, false⟩
    (Cell.new 0 0 3) (Cell.new 1 1 4) rfl rfl

/-! ## The food-cell interactions -/

theorem feedCell_of_lt (f : Food) (c : Cell)
    (h : distance f.pos c.pos < INIT_RADIUS + c.mass - 1) :
    feedCell f c
      = ({ f with isAlive := false }, { c with mass := c.mass + 1.0 }) := by
  unfold feedCell
  rw [if_pos]
  norm_num
  linarith

theorem feedCell_of_ge (f : Food) (c : Cell)
    (h : INIT_RADIUS + c.mass - 1 ≤ distance f.pos c.pos) :
    feedCell f c = (f, c) := by
  unfold feedCell
  rw [if_neg]
  norm_num
  linarith

theorem distance_self (a : Point) : distance a a = 0 := by
  simp [distance]

theorem distance_diag : distance ⟨1, 1⟩ ⟨0, 0⟩ = Real.sqrt 2 := by
  unfold distance
  norm_num

theorem distance_diag' : distance ⟨0, 0⟩ ⟨1, 1⟩ = Real.sqrt 2 := by
  unfold distance
  norm_num

theorem sqrt_two_lt (b : ℝ) (hb : 2 ≤ b) : Real.sqrt 2 < b := by
  rw [Real.sqrt_lt' (by linarith)]
  nlinarith

theorem tick_eq (inp : Input) (s s1 : State) (F : List Food) (C : List Cell)
    (h1 : handleEvents inp s = some s1)
    (h2 : consume (spawnFood inp.spawn s1.Foods) s1.myCells = (F, C)) :
    tick inp s
      = some { s1 with Foods := reapFoods F, myCells := reapCells (updateAll C) } := by
  simp [tick, h1, simulate, h2]

/-- C3 (code at the failing input): a food at distance 12 from a cell of
mass 1 is within `1.5 * INIT_RADIUS + m - 1 = 15`, yet the consumption pass
leaves the food alive and the mass at 1. -/
theorem c3_threshold_failing_input :
    distance (Food.new 12 0).pos (Cell.new 0 0 1).pos
        < 1.5 * INIT_RADIUS + (Cell.new 0 0 1).mass - 1 ∧
      consume [Food.new 12 0] [Cell.new 0 0 1]
        = ([Food.new 12 0], [Cell.new 0 0 1]) := by
  have hd : distance (Food.new 12 0).pos (Cell.new 0 0 1).pos = 12 := by
    simp only [distance, Food.new, Cell.new]
    rw [show ((12 : ℝ) - 0) * (12 - 0) + (0 - 0) * (0 - 0) = 12 ^ 2 by norm_num]
    exact Real.sqrt_sq (by norm_num)
  constructor
  · rw [hd]
    simp only [INIT_RADIUS, Cell.new]
    norm_num
  · have h := feedCell_of_ge (Food.new 12 0) (Cell.new 0 0 1)
      (by rw [hd]; simp only [INIT_RADIUS, Cell.new]; norm_num)
    simp only [consume, feedCells, h]

/-- C4 (code at the failing input): with the two cells of `afterSplit` and one
food at `(0, 0)`, the consumption pass credits both cells, so the total mass
grows by 2 while one food is marked dead. -/
theorem c4_double_credit_failing_input :
    ∃ F C, consume [Food.new 0 0] afterSplit.myCells = (F, C) ∧
      C.map Cell.mass = [3 / 2, 3 / 2] ∧
      totalMass C - totalMass afterSplit.myCells = 2 ∧ deadCount F = 1 := by
  have h0 : feedCell (Food.new 0 0) ⟨⟨0, 0⟩, ⟨0, 0⟩, 1 / 2, 19 / 2⟩
      = (⟨⟨0, 0⟩, false⟩, ⟨⟨0, 0⟩, ⟨0, 0⟩, 3 / 2, 19 / 2⟩) := by
    rw [feedCell_of_lt]
    · simp only [Food.new]; norm_num
    · simp only [Food.new, distance_self, INIT_RADIUS]; norm_num
  have h1 : feedCell ⟨⟨0, 0⟩, false⟩ ⟨⟨1, 1⟩, ⟨0, 0⟩, 1 / 2, 19 / 2⟩
      = (⟨⟨0, 0⟩, false⟩, ⟨⟨1, 1⟩, ⟨0, 0⟩, 3 / 2, 19 / 2⟩) := by
    rw [feedCell_of_lt]
    · norm_num
    · simp only [distance_diag', INIT_RADIUS]
      exact sqrt_two_lt _ (by norm_num)
  refine ⟨[⟨⟨0, 0⟩, false⟩],
    [⟨⟨0, 0⟩, ⟨0, 0⟩, 3 / 2, 19 / 2⟩, ⟨⟨1, 1⟩, ⟨0, 0⟩, 3 / 2, 19 / 2⟩], ?_, ?_, ?_, ?_⟩
  · simp only [afterSplit, consume, feedCells, h0, h1]
  · simp
  · simp only [totalMass, afterSplit, List.map, List.sum_cons, List.sum_nil]
    norm_num
  · simp [deadCount]

/-! ## Concrete iterations of the loop -/

theorem tick_split_init : tick ⟨none, true, none⟩ State.init = some afterSplit := by
  simp [tick, handleEvents, simulate, State.init, toggleSplit, Cell.new, spawnFood,
    consume, updateAll, Cell.update, reapCells, reapFoods, Point.mul, Point.div,
    Point.add, INIT_RADIUS, afterSplit]
  norm_num

theorem tick_merge_fed :
    tick ⟨none, true, some ⟨1, 1⟩⟩ afterSplit = some afterFedMerge := by
  have hE : handleEvents ⟨none, true, some ⟨1, 1⟩⟩ afterSplit
      = some ⟨[⟨⟨0, 0⟩, ⟨0, 0⟩, 1, 19 / 2⟩, ⟨⟨1, 1⟩, ⟨0, 0⟩, -1, 19 / 2⟩], [],
          ⟨0, 0⟩, true⟩ := by
    simp [handleEvents, toggleSplit, afterSplit]
    norm_num
  have h0 : feedCell (Food.new 1 1) ⟨⟨0, 0⟩, ⟨0, 0⟩, 1, 19 / 2⟩
      = (⟨⟨1, 1⟩, false⟩, ⟨⟨0, 0⟩, ⟨0, 0⟩, 2, 19 / 2⟩) := by
    rw [feedCell_of_lt]
    · simp only [Food.new]; norm_num
    · simp only [Food.new, distance_diag, INIT_RADIUS]
      exact sqrt_two_lt _ (by norm_num)
  have h1 : feedCell ⟨⟨1, 1⟩, false⟩ ⟨⟨1, 1⟩, ⟨0, 0⟩, -1, 19 / 2⟩
      = (⟨⟨1, 1⟩, false⟩, ⟨⟨1, 1⟩, ⟨0, 0⟩, 0, 19 / 2⟩) := by
    rw [feedCell_of_lt]
    · norm_num
    · simp only [distance_self, INIT_RADIUS]; norm_num
  have hC : consume (spawnFood (some ⟨1, 1⟩) []) 
      [⟨⟨0, 0⟩, ⟨0, 0⟩, 1, 19 / 2⟩, ⟨⟨1, 1⟩, ⟨0, 0⟩, -1, 19 / 2⟩]
      = ([⟨⟨1, 1⟩, false⟩],
          [⟨⟨0, 0⟩, ⟨0, 0⟩, 2, 19 / 2⟩, ⟨⟨1, 1⟩, ⟨0, 0⟩, 0, 19 / 2⟩]) := by
    simp only [spawnFood, List.nil_append, consume, feedCells, h0, h1]
  rw [tick_eq _ _ _ _ _ hE hC]
  simp [reapFoods, reapCells, updateAll, Cell.update, Point.mul, Point.add,
    INIT_RADIUS, MASS_DEFICIT, afterFedMerge]
  norm_num

theorem tick_split_again :
    ∃ s, tick ⟨none, true, none⟩ afterFedMerge = some s ∧
      s.myCells.length = 3 ∧ s.singleCell = false := by
  simp [tick, handleEvents, simulate, afterFedMerge, toggleSplit, Cell.new,
    spawnFood, consume, updateAll, Cell.update, reapCells, reapFoods, Point.mul,
    Point.div, Point.add, INIT_RADIUS, MASS_DEFICIT]
  norm_num

/-- C2 (code at the failing input): from `afterSplit` (two cells of mass `0.5`,
`singleCell = false`), an iteration with Space pressed and a food spawned at
`(1, 1)` ends with two cells, the second of mass `0`, and `singleCell = true`:
the food-cell pass lifts the sentinel mass `-1` to `0` before reaping. -/
theorem c2_merge_failing_input :
    afterSplit.myCells.length = 2 ∧ (∀ c ∈ afterSplit.myCells, 0 ≤ c.mass) ∧
      afterSplit.singleCell = false ∧
      ∃ s, tick ⟨none, true, some ⟨1, 1⟩⟩ afterSplit = some s ∧
        s.myCells.length = 2 ∧ s.myCells.map Cell.mass = [1999 / 1000, 0] ∧
        s.singleCell = true := by
  refine ⟨rfl, ?_, rfl, afterFedMerge, tick_merge_fed, rfl, ?_, rfl⟩
  · simp [afterSplit]
  · simp [afterFedMerge]

/-- C1 (code at the failing input): starting from `State.init`, Space, then
Space together with a food spawned at `(1, 1)`, reaches a state with two cells
and `singleCell = true`; one more Space reaches a state with three cells. -/
theorem c1_invariant_failing_run :
    run [⟨none, true, none⟩, ⟨none, true, some ⟨1, 1⟩⟩] State.init
        = some afterFedMerge ∧
      afterFedMerge.myCells.length = 2 ∧ afterFedMerge.singleCell = true ∧
      ∃ s, run [⟨none, true, none⟩, ⟨none, true, some ⟨1, 1⟩⟩,
          ⟨none, true, none⟩] State.init = some s ∧ s.myCells.length = 3 := by
  refine ⟨?_, rfl, rfl, ?_⟩
  · simp only [run, tick_split_init, tick_merge_fed, Option.some_bind]
  · obtain ⟨s, hs, hlen, _⟩ := tick_split_again
    exact ⟨s, by simp only [run, tick_split_init, tick_merge_fed, hs,
      Option.some_bind], hlen⟩

/-! ## A merged-away cell that is fed survives reaping -/

theorem update_mass_nonneg (c : Cell) (h : 0 ≤ c.mass) : 0 ≤ c.update.mass := by
  unfold Cell.update
  simp only []
  have := MASS_DEFICIT_pos
  split
  · positivity
  · exact h

theorem reapCells_pair (a b : Cell) (ha : 0 ≤ a.mass) (hb : 0 ≤ b.mass) :
    reapCells [a, b] = [a, b] := by
  simp only [reapCells, List.filter]
  have ha' : ¬ a.mass < 0.0 := by norm_num; exact ha
  have hb' : ¬ b.mass < 0.0 := by norm_num; exact hb
  simp [ha', hb']

theorem feedCell_dead_cell (p : Point) (alive : Bool) (c1 : Cell)
    (hp : distance p c1.pos < 8) :
    feedCell ⟨p, alive⟩ { c1 with mass := -1 }
      = (⟨p, false⟩, { c1 with mass := -1 + 1.0 }) := by
  rw [feedCell_of_lt]
  simp only [INIT_RADIUS]
  norm_num
  exact hp

/-- In every two-cell state without food, a merge in the same iteration as a
food spawned within 8 of cell 1 leaves both cells in the collection, whether
or not cell 0 is fed as well. -/
theorem merge_fed_keeps_two_cells (s : State) (c0 c1 : Cell) (p : Point)
    (hs : s.singleCell = false) (hc : s.myCells = [c0, c1]) (hf : s.Foods = [])
    (h0 : 0 ≤ c0.mass) (h1 : 0 ≤ c1.mass) (hp : distance p c1.pos < 8) :
    ∃ s', tick ⟨none, true, some p⟩ s = some s' ∧ s'.myCells.length = 2 ∧
      s'.singleCell = true := by
  have hE : handleEvents ⟨none, true, some p⟩ s
      = some { s with myCells := [{ c0 with mass := c0.mass + c1.mass },
                                  { c1 with mass := -1 }], singleCell := true } := by
    simp [handleEvents, toggleSplit, hs, hc]
  have hb := fun alive => feedCell_dead_cell p alive c1 hp
  have hu1 : 0 ≤ (Cell.update { c1 with mass := -1 + 1.0 }).mass := by
    apply update_mass_nonneg
    show (0 : ℝ) ≤ -1 + 1.0
    norm_num
  rcases lt_or_le (distance p c0.pos) (INIT_RADIUS + (c0.mass + c1.mass) - 1) with h | h
  · have ha : feedCell (Food.new p.x p.y) { c0 with mass := c0.mass + c1.mass }
        = (⟨p, false⟩, { c0 with mass := c0.mass + c1.mass + 1.0 }) :=
      feedCell_of_lt _ _ h
    have hu0 : 0 ≤ (Cell.update { c0 with mass := c0.mass + c1.mass + 1.0 }).mass := by
      apply update_mass_nonneg
      show (0 : ℝ) ≤ c0.mass + c1.mass + 1.0
      norm_num
      linarith
    have hC : consume (spawnFood (some p) s.Foods)
        [{ c0 with mass := c0.mass + c1.mass }, { c1 with mass := -1 }]
        = ([⟨p, false⟩], [{ c0 with mass := c0.mass + c1.mass + 1.0 },
            { c1 with mass := -1 + 1.0 }]) := by
      simp only [hf, spawnFood, List.nil_append, consume, feedCells, ha, hb]
    refine ⟨_, tick_eq _ _ _ _ _ hE hC, ?_, rfl⟩
    show (reapCells [_, _]).length = 2
    rw [reapCells_pair _ _ hu0 hu1]
    rfl
  · have ha : feedCell (Food.new p.x p.y) { c0 with mass := c0.mass + c1.mass }
        = (⟨p, true⟩, { c0 with mass := c0.mass + c1.mass }) :=
      feedCell_of_ge _ _ h
    have hu0 : 0 ≤ (Cell.update { c0 with mass := c0.mass + c1.mass }).mass := by
      apply update_mass_nonneg
      show (0 : ℝ) ≤ c0.mass + c1.mass
      linarith
    have hC : consume (spawnFood (some p) s.Foods)
        [{ c0 with mass := c0.mass + c1.mass }, { c1 with mass := -1 }]
        = ([⟨p, false⟩], [{ c0 with mass := c0.mass + c1.mass },
            { c1 with mass := -1 + 1.0 }]) := by
      simp only [hf, spawnFood, List.nil_append, consume, feedCells, ha, hb]
    refine ⟨_, tick_eq _ _ _ _ _ hE hC, ?_, rfl⟩
    show (reapCells [_, _]).length = 2
    rw [reapCells_pair _ _ hu0 hu1]
    rfl

/-! ## Reaping -/

/-- C12: reaping twice gives the same food and cell collections as reaping
once. -/
theorem c12_reaping_idempotent (foods : List Food) (cells : List Cell) :
    reapFoods (reapFoods foods) = reapFoods foods ∧
      reapCells (reapCells cells) = reapCells cells := by
  constructor
  · simp [reapFoods, List.filter_filter]
  · simp [reapCells, List.filter_filter]

theorem feedCells_length (cells : List Cell) :
    ∀ f : Food, (feedCells f cells).2.length = cells.length := by
  induction cells with
  | nil => intro f; rfl
  | cons c cs ih =>
    intro f
    simp only [feedCells, List.length_cons, ih]

theorem consume_length (foods : List Food) :
    ∀ cells : List Cell, (consume foods cells).1.length = foods.length ∧
      (consume foods cells).2.length = cells.length := by
  induction foods with
  | nil => intro cells; exact ⟨rfl, rfl⟩
  | cons f fs ih =>
    intro cells
    simp only [consume, List.length_cons]
    exact ⟨by rw [(ih _).1], by rw [(ih _).2, feedCells_length]⟩

/-- C17: reaping keeps, in order and unmodified, exactly the foods with
`isAlive = true` and exactly the cells with `mass ≥ 0`; the food-cell pass and
the update pass keep the length of both collections. -/
theorem c17_reaping_removes_exactly_dead (foods : List Food) (cells : List Cell) :
    reapFoods foods = foods.filter (fun f => f.isAlive) ∧
      reapCells cells = cells.filter (fun c => decide (0 ≤ c.mass)) ∧
      (consume foods cells).1.length = foods.length ∧
      (consume foods cells).2.length = cells.length ∧
      (updateAll cells).length = cells.length := by
  refine ⟨?_, ?_, (consume_length foods cells).1, (consume_length foods cells).2, ?_⟩
  · unfold reapFoods
    congr 1
    funext f
    cases f.isAlive <;> rfl
  · unfold reapCells
    congr 1
    funext c
    have e : (0.0 : ℝ) = 0 := by norm_num
    rw [e]
    by_cases h : 0 ≤ c.mass
    · simp [h]
    · simp [h, not_le.mp h]
  · simp [updateAll]

/-! ## The update pass -/

theorem update_mass_le (c : Cell) : c.update.mass ≤ c.mass := by
  unfold Cell.update
  simp only []
  split
  · rename_i h1
    have h2 : (1 : ℝ) < c.mass := by norm_num at h1; exact h1
    have : MASS_DEFICIT ≤ 1 := by unfold MASS_DEFICIT; norm_num
    nlinarith
  · exact le_refl _

theorem update_mass_of_le_one (c : Cell) (h : c.mass ≤ 1) :
    c.update.mass = c.mass := by
  unfold Cell.update
  simp only []
  rw [if_neg]
  norm_num
  exact h

theorem updateN_mass_le (n : ℕ) : ∀ c : Cell, (updateN n c).mass ≤ c.mass := by
  induction n with
  | zero => intro c; exact le_refl _
  | succ k ih => intro c; exact le_trans (ih c.update) (update_mass_le c)

theorem updateN_mass_one (n : ℕ) :
    ∀ c : Cell, c.mass = 1 → (updateN n c).mass = 1 := by
  induction n with
  | zero => intro c h; exact h
  | succ k ih =>
    intro c h
    exact ih c.update (by rw [update_mass_of_le_one c (le_of_eq h), h])

/-- C16: `Cell::update` adds `velocity * DELTA_T` to the position, keeps the
velocity, multiplies the mass by `MASS_DEFICIT` when it is above 1 and keeps it
otherwise; a cell of mass exactly 1 keeps mass 1 under any number of updates. -/
theorem c16_integration_step (c : Cell) (n : ℕ) :
    c.update.pos = c.pos.add (c.vel.mul DELTA_T) ∧ c.update.vel = c.vel ∧
      (c.mass > 1.0 → c.update.mass = c.mass * MASS_DEFICIT) ∧
      (¬ c.mass > 1.0 → c.update.mass = c.mass) ∧
      (c.mass = 1.0 → (updateN n c).mass = 1.0) := by
  refine ⟨rfl, rfl, ?_, ?_, ?_⟩
  · intro h
    simp only [Cell.update, if_pos h]
  · intro h
    simp only [Cell.update, if_neg h]
  · intro h
    have h1 : c.mass = 1 := by rw [h]; norm_num
    rw [updateN_mass_one n c h1]
    norm_num

/-- C16 (witness): a cell of mass 2 with velocity `(20, 0)` decays and moves; a
cell of mass 1 keeps its mass under five updates. -/
theorem c16_integration_step_witness :
    (Cell.update ⟨⟨0, 0⟩, ⟨20, 0⟩, 2, 11⟩).pos
        = Point.add ⟨0, 0⟩ (Point.mul ⟨20, 0⟩ DELTA_T) ∧
      (Cell.update ⟨⟨0, 0⟩, ⟨20, 0⟩, 2, 11⟩).mass = 2 * MASS_DEFICIT ∧
      (updateN 5 (Cell.new 0 0 1.0)).mass = 1.0 :=
  ⟨(c16_integration_step ⟨⟨0, 0⟩, ⟨20, 0⟩, 2, 11⟩ 0).1,
    (c16_integration_step ⟨⟨0, 0⟩, ⟨20, 0⟩, 2, 11⟩ 0).2.2.1
      (by show (2 : ℝ) > 1.0; norm_num),
    (c16_integration_step (Cell.new 0 0 1.0) 5).2.2.2.2 rfl⟩

/-- C19: for a cell with mass above 1 and any number `n` of consecutive
updates, the resulting mass is strictly above `MASS_DEFICIT` and at most the
starting mass; a mass that is at most 1 is a fixed point of `Cell::update`. -/
theorem c19_decay_bounds (c : Cell) (n : ℕ) (h : c.mass > 1) :
    MASS_DEFICIT < (updateN n c).mass ∧ (updateN n c).mass ≤ c.mass ∧
      ∀ d : Cell, d.mass ≤ 1 → d.update.mass = d.mass := by
  refine ⟨updateN_mass_gt_deficit n c ?_, updateN_mass_le n c,
    update_mass_of_le_one⟩
  have : MASS_DEFICIT < 1 := by unfold MASS_DEFICIT; norm_num
  linarith

/-- C19 (witness): four updates of a cell of mass 3. -/
theorem c19_decay_bounds_witness :
    (Cell.new 0 0 3).mass > 1 ∧
      MASS_DEFICIT < (updateN 4 (Cell.new 0 0 3)).mass ∧
      (updateN 4 (Cell.new 0 0 3)).mass ≤ (Cell.new 0 0 3).mass ∧
      ∀ d : Cell, d.mass ≤ 1 → d.update.mass = d.mass :=
  ⟨by simp [Cell.new],
    c19_decay_bounds (Cell.new 0 0 3) 4 (by simp [Cell.new])⟩

/-! ## Split geometry -/

/-- C15: in a single-cell state with cell 0 at position `p` and velocity `v`,
the toggle creates the second cell at `p + (1, 1)`, keeps cell 0 at `p`, sets
the velocity of cell 0 to `1.2 * v` and the velocity of the new cell to half of
that, which is `0.6 * v`. -/
theorem c15_split_geometry (s : State) (c : Cell)
    (hs : s.singleCell = true) (hc : s.myCells = [c]) :
    ∃ s' a b, toggleSplit s = some s' ∧ s'.myCells = [a, b] ∧
      a.pos = c.pos ∧ b.pos = c.pos.add ⟨1, 1⟩ ∧ a.vel = c.vel.mul 1.2 ∧
      b.vel = a.vel.div 2 ∧ b.vel = c.vel.mul 0.6 := by
  simp [toggleSplit, hs, hc, Cell.new]
  refine ⟨_, _, ⟨rfl, rfl⟩, rfl, ?_, rfl, ?_, ?_⟩
  · simp [Point.add]
    norm_num
  · simp [Point.div]
    norm_num
  · simp only [Point.div, Point.mul]
    ext
    · simp only []; ring
    · simp only []; ring

/-- C15 (witness): splitting a cell at `(3, 4)` with velocity `(10, 5)`. -/
theorem c15_split_geometry_witness :
    ∃ s' a b,
      toggleSplit ⟨[⟨⟨3, 4⟩, ⟨10, 5⟩, 2, 11⟩], [], ⟨0, 0⟩, true⟩ = some s' ∧
      s'.myCells = [a, b] ∧ a.pos = ⟨3, 4⟩ ∧ b.pos = Point.add ⟨3, 4⟩ ⟨1, 1⟩ ∧
      a.vel = Point.mul ⟨10, 5⟩ 1.2 ∧ b.vel = a.vel.div 2 ∧
      b.vel = Point.mul ⟨10, 5⟩ 0.6 :=
  c15_split_geometry ⟨[⟨⟨3, 4⟩, ⟨10, 5⟩, 2, 11⟩], [], ⟨0, 0⟩, true⟩
    ⟨⟨3, 4⟩, ⟨10, 5⟩, 2, 11⟩ rfl rfl

/-! ## Consumption within the effective radius -/

theorem distance_xaxis (a : ℝ) (ha : 0 ≤ a) : distance ⟨a, 0⟩ ⟨0, 0⟩ = a := by
  unfold distance
  rw [show (a - 0) * (a - 0) + ((0 : ℝ) - 0) * (0 - 0) = a ^ 2 by ring]
  exact Real.sqrt_sq ha

/-- C14: for one cell of mass `m` and one alive food at distance `d`, the
food-cell pass marks the food dead and sets the mass to `m + 1` when
`d < INIT_RADIUS + m - 1`, and leaves food and cell unchanged otherwise. -/
theorem c14_consumption_effective_radius (f : Food) (c : Cell)
    (hf : f.isAlive = true) :
    (distance f.pos c.pos < INIT_RADIUS + c.mass - 1 →
      consume [f] [c]
        = ([{ f with isAlive := false }], [{ c with mass := c.mass + 1 }])) ∧
    (¬ distance f.pos c.pos < INIT_RADIUS + c.mass - 1 →
      consume [f] [c] = ([f], [c]) ∧ f.isAlive = true) := by
  constructor
  · intro h
    simp only [consume, feedCells, feedCell_of_lt f c h]
    norm_num
  · intro h
    simp only [consume, feedCells, feedCell_of_ge f c (not_lt.mp h)]
    exact ⟨trivial, hf⟩

/-- C14 (witness): a cell of mass 5 at the origin; the food at distance 10 is
eaten and the mass becomes 6, the food at distance 50 is untouched. -/
theorem c14_consumption_effective_radius_witness :
    INIT_RADIUS + (Cell.new 0 0 5).mass - 1 = 14 ∧
      consume [Food.new 10 0] [Cell.new 0 0 5]
        = ([{ Food.new 10 0 with isAlive := false }],
            [{ Cell.new 0 0 5 with mass := (Cell.new 0 0 5).mass + 1 }]) ∧
      (Cell.new 0 0 5).mass + 1 = 6 ∧
      consume [Food.new 50 0] [Cell.new 0 0 5]
        = ([Food.new 50 0], [Cell.new 0 0 5]) := by
  have hr : INIT_RADIUS + (Cell.new 0 0 5).mass - 1 = 14 := by
    simp only [INIT_RADIUS, Cell.new]; norm_num
  have h10 : distance (Food.new 10 0).pos (Cell.new 0 0 5).pos = 10 :=
    distance_xaxis 10 (by norm_num)
  have h50 : distance (Food.new 50 0).pos (Cell.new 0 0 5).pos = 50 :=
    distance_xaxis 50 (by norm_num)
  refine ⟨hr, ?_, ?_, ?_⟩
  · exact (c14_consumption_effective_radius (Food.new 10 0) (Cell.new 0 0 5)
      rfl).1 (by rw [h10, hr]; norm_num)
  · simp only [Cell.new]; norm_num
  · exact ((c14_consumption_effective_radius (Food.new 50 0) (Cell.new 0 0 5)
      rfl).2 (by rw [h50, hr]; norm_num)).1

/-! ## Iterations with a click -/

theorem vlen_xaxis (a : ℝ) (ha : 0 ≤ a) : vlen ⟨a, 0⟩ = a := by
  unfold vlen
  rw [show a * a + (0 : ℝ) * 0 = a ^ 2 by ring]
  exact Real.sqrt_sq ha

theorem rescaleVelocity_xaxis (a m : ℝ) (ha : 0 ≤ a) (h : a ≤ MAX_SPEED) :
    rescaleVelocity ⟨a, 0⟩ m = ⟨a, 0⟩ :=
  rescaleVelocity_of_le _ _ (by rw [vlen_xaxis a ha]; exact h)

theorem handleEvents_click_init (a : ℝ) (ha : 0 ≤ a) (h : a * DRAG_SPEED ≤ MAX_SPEED) :
    handleEvents ⟨some ⟨a, 0⟩, false, none⟩ State.init
      = some ⟨[⟨⟨0, 0⟩, ⟨a * DRAG_SPEED, 0⟩, 1, 10⟩], [], ⟨a, 0⟩, true⟩ := by
  have hD : 0 ≤ DRAG_SPEED := by unfold DRAG_SPEED; norm_num
  have hv : rescaleVelocity ⟨a * DRAG_SPEED, 0⟩ 1 = ⟨a * DRAG_SPEED, 0⟩ :=
    rescaleVelocity_xaxis _ _ (mul_nonneg ha hD) h
  simp [handleEvents, setMoveTarget, State.init, Cell.new, Point.sub, Point.mul,
    INIT_RADIUS, hv]
  norm_num
  exact hv

theorem tick_move100 :
    tick ⟨some ⟨100, 0⟩, false, none⟩ State.init = some afterMove100 := by
  have hE := handleEvents_click_init 100 (by norm_num)
    (by unfold DRAG_SPEED MAX_SPEED; norm_num)
  rw [tick_eq _ _ _ [] _ hE rfl]
  simp [reapFoods, reapCells, updateAll, Cell.update, Point.mul, Point.add,
    INIT_RADIUS, DRAG_SPEED, DELTA_T, afterMove100]
  norm_num

theorem tick_move_split :
    tick ⟨none, true, none⟩ afterMove100 = some afterMoveSplit := by
  simp [tick, handleEvents, simulate, afterMove100, toggleSplit, Cell.new,
    spawnFood, consume, updateAll, Cell.update, reapCells, reapFoods, Point.mul,
    Point.div, Point.add, INIT_RADIUS, DELTA_T, afterMoveSplit]
  norm_num

theorem tick_move_merge :
    tick ⟨none, true, none⟩ afterMoveSplit = some afterMoveMerge := by
  simp [tick, handleEvents, simulate, afterMoveSplit, toggleSplit,
    spawnFood, consume, updateAll, Cell.update, reapCells, reapFoods, Point.mul,
    Point.add, INIT_RADIUS, DELTA_T, afterMoveMerge]
  norm_num

theorem tick_move125 :
    tick ⟨some ⟨125, 0⟩, false, none⟩ State.init = some afterMove125 := by
  have hE := handleEvents_click_init 125 (by norm_num)
    (by unfold DRAG_SPEED MAX_SPEED; norm_num)
  rw [tick_eq _ _ _ [] _ hE rfl]
  simp [reapFoods, reapCells, updateAll, Cell.update, Point.mul, Point.add,
    INIT_RADIUS, DRAG_SPEED, DELTA_T, afterMove125]
  norm_num

theorem tick_boost : tick ⟨none, true, none⟩ afterMove125 = some afterBoost := by
  simp [tick, handleEvents, simulate, afterMove125, toggleSplit, Cell.new,
    spawnFood, consume, updateAll, Cell.update, reapCells, reapFoods, Point.mul,
    Point.div, Point.add, INIT_RADIUS, DELTA_T, afterBoost]
  norm_num

theorem tick_feed_init :
    tick ⟨none, false, some ⟨0, 0⟩⟩ State.init = some afterFeed := by
  have hE : handleEvents ⟨none, false, some ⟨0, 0⟩⟩ State.init
      = some ⟨[⟨⟨0, 0⟩, ⟨0, 0⟩, 1, 10⟩], [], ⟨0, 0⟩, true⟩ := by
    simp [handleEvents, State.init, Cell.new, INIT_RADIUS]
    norm_num
  have h0 : feedCell (Food.new 0 0) ⟨⟨0, 0⟩, ⟨0, 0⟩, 1, 10⟩
      = (⟨⟨0, 0⟩, false⟩, ⟨⟨0, 0⟩, ⟨0, 0⟩, 2, 10⟩) := by
    rw [feedCell_of_lt]
    · simp only [Food.new]; norm_num
    · simp only [Food.new, distance_self, INIT_RADIUS]; norm_num
  have hC : consume (spawnFood (some ⟨0, 0⟩) []) [⟨⟨0, 0⟩, ⟨0, 0⟩, 1, 10⟩]
      = ([⟨⟨0, 0⟩, false⟩], [⟨⟨0, 0⟩, ⟨0, 0⟩, 2, 10⟩]) := by
    simp only [spawnFood, List.nil_append, consume, feedCells, h0]
  rw [tick_eq _ _ _ _ _ hE hC]
  simp [reapFoods, reapCells, updateAll, Cell.update, Point.mul, Point.add,
    INIT_RADIUS, MASS_DEFICIT, afterFeed]
  norm_num

/-- C13: from `State.init` with no food, an iteration with a click at
`(100, 0)` leaves the cell with velocity `(20, 0)` at position `(1, 0)`; a
following iteration with Space leaves two cells whose masses sum to 1 and
`singleCell = false`; a further iteration with Space leaves exactly one cell,
of mass 1, and `singleCell = true`. -/
theorem c13_end_to_end_scenario :
    tick ⟨some ⟨100, 0⟩, false, none⟩ State.init = some afterMove100 ∧
      afterMove100.myCells.map Cell.vel = [⟨20, 0⟩] ∧
      afterMove100.myCells.map Cell.pos = [⟨1, 0⟩] ∧
    tick ⟨none, true, none⟩ afterMove100 = some afterMoveSplit ∧
      afterMoveSplit.myCells.length = 2 ∧
      totalMass afterMoveSplit.myCells = 1 ∧
      afterMoveSplit.singleCell = false ∧
    tick ⟨none, true, none⟩ afterMoveSplit = some afterMoveMerge ∧
      afterMoveMerge.myCells.map Cell.mass = [1] ∧
      afterMoveMerge.singleCell = true := by
  refine ⟨tick_move100, rfl, rfl, tick_move_split, rfl, ?_, rfl,
    tick_move_merge, rfl, rfl⟩
  simp only [totalMass, afterMoveSplit, List.map, List.sum_cons, List.sum_nil]
  norm_num

/-- C11 (code at the failing input): from `State.init`, a click at `(125, 0)`
and then Space reach a state in which cell 0 has speed 30, above
`MAX_SPEED = 25`: the split multiplies the capped velocity by `1.2`. -/
theorem c11_speed_failing_run :
    run [⟨some ⟨125, 0⟩, false, none⟩, ⟨none, true, none⟩] State.init
        = some afterBoost ∧
      ∃ c ∈ afterBoost.myCells, vlen c.vel = 30 ∧ MAX_SPEED < vlen c.vel := by
  refine ⟨by simp only [run, tick_move125, tick_boost, Option.some_bind],
    ⟨⟨11 / 4, 0⟩, ⟨30, 0⟩, 1 / 2, 19 / 2⟩, by simp [afterBoost], ?_, ?_⟩
  · exact vlen_xaxis 30 (by norm_num)
  · rw [show vlen (⟨⟨11 / 4, 0⟩, ⟨30, 0⟩, 1 / 2, 19 / 2⟩ : Cell).vel = 30 from
      vlen_xaxis 30 (by norm_num)]
    unfold MAX_SPEED
    norm_num

/-! ## The stored effective radius -/

theorem mem_tick_cells (inp : Input) (s s' : State) (h : tick inp s = some s')
    (c : Cell) (hc : c ∈ s'.myCells) : ∃ c' : Cell, c = c'.update := by
  unfold tick at h
  rcases Option.map_eq_some'.mp h with ⟨s1, _, rfl⟩
  simp only [simulate, reapCells, updateAll] at hc
  rcases List.mem_map.mp (List.mem_of_mem_filter hc) with ⟨c', _, rfl⟩
  exact ⟨c', rfl⟩

/-- C18 (counterexample): after one iteration from `State.init` with a food
spawned at `(0, 0)`, the cell has mass `1.999` and stored effective radius 11,
not `INIT_RADIUS + 1.999 - 1 = 10.999`. -/
theorem c18_effective_radius_counterexample :
    tick ⟨none, false, some ⟨0, 0⟩⟩ State.init = some afterFeed ∧
      ∃ c ∈ afterFeed.myCells, c.effective_radius ≠ INIT_RADIUS + c.mass - 1 := by
  refine ⟨tick_feed_init, ⟨⟨0, 0⟩, ⟨0, 0⟩, 1999 / 1000, 11⟩,
    by simp [afterFeed], ?_⟩
  simp only [INIT_RADIUS]
  norm_num

/-- C18 (amended): after every iteration, every cell in the collection has
stored effective radius `INIT_RADIUS + m - 1`, where `m` is the mass the cell
had when `Cell::update` started, before the decay: its current mass is
`m * MASS_DEFICIT` when `m > 1` and `m` otherwise, so the stored radius is at
least `INIT_RADIUS + mass - 1` and equal to it when `m ≤ 1`. -/
theorem c18_effective_radius_amended (inp : Input) (s s' : State)
    (h : tick inp s = some s') :
    ∀ c ∈ s'.myCells, ∃ m : ℝ, c.effective_radius = INIT_RADIUS + m - 1 ∧
      c.mass = (if m > 1 then m * MASS_DEFICIT else m) ∧
      INIT_RADIUS + c.mass - 1 ≤ c.effective_radius ∧
      (m ≤ 1 → c.effective_radius = INIT_RADIUS + c.mass - 1) := by
  intro c hc
  rcases mem_tick_cells inp s s' h c hc with ⟨c', rfl⟩
  have he : c'.update.effective_radius = INIT_RADIUS + c'.mass - 1 := by
    simp only [Cell.update]
    norm_num
  have hm : c'.update.mass = (if c'.mass > 1 then c'.mass * MASS_DEFICIT else c'.mass) := by
    simp only [Cell.update]
    norm_num
  refine ⟨c'.mass, he, hm, ?_, ?_⟩
  · rw [he]
    have := update_mass_le c'
    linarith
  · intro h1
    rw [he, update_mass_of_le_one c' h1]

/-- C18 (witness): the amended statement for the iteration from `State.init`
with a food spawned at `(0, 0)`. -/
theorem c18_effective_radius_amended_witness :
    tick ⟨none, false, some ⟨0, 0⟩⟩ State.init = some afterFeed ∧
      ∀ c ∈ afterFeed.myCells, ∃ m : ℝ, c.effective_radius = INIT_RADIUS + m - 1 ∧
        c.mass = (if m > 1 then m * MASS_DEFICIT else m) ∧
        INIT_RADIUS + c.mass - 1 ≤ c.effective_radius ∧
        (m ≤ 1 → c.effective_radius = INIT_RADIUS + c.mass - 1) :=
  ⟨tick_feed_init, c18_effective_radius_amended _ _ _ tick_feed_init⟩

end

end Agario
